import Mathlib

/-!
Shallow embedding of the risbee virtual machine (a RISC-V RV64IM-subset
interpreter written in Go) and verification of its specification claims.

Machine integers are modelled as `Nat` (for Go's `uint64`/`uint32`/`byte`,
with explicit reduction modulo `2^w` at the points where Go's types force
wraparound) and `Int` (for Go's `int64`/`int32`, with explicit two's
complement reinterpretation).  Go conversions map as follows:

  * `uint64(x)` for `x : int64`   ↦ `toU64 x`
  * `int64(n)`  for `n : uint64`  ↦ `toSigned 64 n`
  * `int32(n)`  for `n : uint32`  ↦ `toSigned 32 n`
  * Go signed arithmetic wraps, reproduced by `wrap64` where an
    intermediate `int64` result is observed before being stored.

The VM memory (`[65536]byte`) and register file (`[32]uint64`) are
modelled as functions `Nat → Nat`; byte reads take the value modulo 256,
exactly the constraint Go's `byte` type imposes on the array contents.

Go's `RisbeeVm` struct holds host callbacks (`ExitCallback`,
`PanicCallback`, both possibly nil) and a syscall map
`map[uint64]func(*RisbeeVm) uint64`.  Callbacks are side effects on the
host; they are modelled by a "registered" flag plus a trace of the
invocations made.  The syscall map contains functions over the VM state
itself, which a Lean structure cannot store directly (negative
occurrence), so the table is passed alongside the state, as a function
from syscall code to an optional handler; Go handlers may mutate the VM
and return a `uint64`, hence `SyscallFn := VmState → VmState × Nat`.

A Go runtime panic (out-of-bounds array indexing or slicing aborts the
process; it is distinct from the VM's own `panic` method) is modelled by
`Option`: `execute` returns `none` when the Go program would crash.
-/

namespace Risbee

/-- Total size of the VM memory in bytes (`RISBEE_STACK_SIZE` in the source). -/
def RISBEE_STACK_SIZE : Nat := 65536

/-- Reinterpret the low `w` bits of a natural number as a `w`-bit two's
complement signed integer (the meaning of Go's `int64(u)`, `int32(u)`,
`int16(u)`, `int8(u)` conversions applied to an unsigned value). -/
def toSigned (w : Nat) (n : Nat) : Int :=
  if n % 2 ^ w < 2 ^ (w - 1) then (n % 2 ^ w : Int) else (n % 2 ^ w : Int) - 2 ^ w

/-- Reinterpret an integer as a `uint64` bit pattern (Go's `uint64(x)` for
`x : int64`, and the wraparound Go applies when storing into a `uint64`). -/
def toU64 (i : Int) : Nat := (i % 18446744073709551616).toNat

/-- Go `int64` wraparound: the `int64` whose bit pattern is `i mod 2^64`. -/
def wrap64 (i : Int) : Int := toSigned 64 (toU64 i)

/-- Go `int32` wraparound: the `int32` whose bit pattern is `i mod 2^32`. -/
def wrap32 (i : Int) : Int := toSigned 32 ((i % 4294967296).toNat)

/-- Embedding of `shiftLeftInt64` from `shift.go`: left shift of an `int64`
by an `int64` amount, shifting the other way for negative amounts. -/
def shiftLeftInt64 (x y : Int) : Int :=
  if 0 ≤ y ∧ y < 64 then toSigned 64 (toU64 x * 2 ^ y.toNat)
  else if y < 0 ∧ -64 < y then toSigned 64 (toU64 x / 2 ^ (-y).toNat)
  else 0

/-- Embedding of `shiftRightInt64` from `shift.go`: logical right shift of
an `int64` by an `int64` amount. -/
def shiftRightInt64 (x y : Int) : Int :=
  if 0 ≤ y ∧ y < 64 then toSigned 64 (toU64 x / 2 ^ y.toNat)
  else if y < 0 ∧ -64 < y then toSigned 64 (toU64 x * 2 ^ (-y).toNat)
  else 0

/-- Embedding of `shiftRightInt128` from `shift.go`.  Despite its name it
operates on a 64-bit value: `uint64(x) >> y` for `0 ≤ y < 128`, which in Go
is `0` whenever `y ≥ 64`. -/
def shiftRightInt128 (x y : Int) : Int :=
  if 0 ≤ y ∧ y < 128 then toSigned 64 (toU64 x / 2 ^ y.toNat)
  else if y < 0 ∧ -128 < y then toSigned 64 (toU64 x * 2 ^ (-y).toNat)
  else 0

/-- Embedding of `arithShiftRightInt64` from `shift.go`: Go's arithmetic
right shift `x >> y` on `int64` is floor division by `2^y`. -/
def arithShiftRightInt64 (x y : Int) : Int :=
  if 0 ≤ y ∧ y < 64 then Int.fdiv x (2 ^ y.toNat)
  else if 64 ≤ y then (if x < 0 then -1 else 0)
  else if y < 0 ∧ -64 < y then wrap64 (x * 2 ^ (-y).toNat)
  else 0

/-- Read one byte of VM memory; the Go array stores `byte`, so the value
is always below 256. -/
def readByte (mem : Nat → Nat) (addr : Nat) : Nat := mem addr % 256

/-- Write one byte of VM memory (Go `vm.Memory[addr] = b`). -/
def setMem (mem : Nat → Nat) (addr v : Nat) : Nat → Nat :=
  fun i => if i = addr then v else mem i

/-- Write one register (Go `vm.Registers[i] = v`). -/
def setReg (regs : Nat → Nat) (i v : Nat) : Nat → Nat :=
  fun j => if j = i then v else regs j

/-- Embedding of `uint16LittleEndian` from `bits.go`, applied to the slice
`vm.Memory[addr:]`, whose length is `65536 - addr`. -/
def uint16LittleEndian (mem : Nat → Nat) (addr : Nat) : Nat :=
  if RISBEE_STACK_SIZE - addr < 2 then 0
  else readByte mem addr + readByte mem (addr + 1) * 256

/-- Embedding of `uint32LittleEndian` from `bits.go`, applied to the slice
`vm.Memory[addr:]`. -/
def uint32LittleEndian (mem : Nat → Nat) (addr : Nat) : Nat :=
  if RISBEE_STACK_SIZE - addr < 4 then 0
  else readByte mem addr + readByte mem (addr + 1) * 256 +
    readByte mem (addr + 2) * 65536 + readByte mem (addr + 3) * 16777216

/-- Embedding of `uint64LittleEndian` from `bits.go`, applied to the slice
`vm.Memory[addr:]`. -/
def uint64LittleEndian (mem : Nat → Nat) (addr : Nat) : Nat :=
  if RISBEE_STACK_SIZE - addr < 8 then 0
  else readByte mem addr + readByte mem (addr + 1) * 256 +
    readByte mem (addr + 2) * 65536 + readByte mem (addr + 3) * 16777216 +
    readByte mem (addr + 4) * 4294967296 + readByte mem (addr + 5) * 1099511627776 +
    readByte mem (addr + 6) * 281474976710656 + readByte mem (addr + 7) * 72057594037927936

/-- Embedding of `putUint16` from `bits.go` on the slice `vm.Memory[addr:]`. -/
def putUint16 (mem : Nat → Nat) (addr v : Nat) : Nat → Nat :=
  if RISBEE_STACK_SIZE - addr < 2 then mem
  else setMem (setMem mem addr (v % 256)) (addr + 1) (v / 256 % 256)

/-- Embedding of `putUint32` from `bits.go` on the slice `vm.Memory[addr:]`. -/
def putUint32 (mem : Nat → Nat) (addr v : Nat) : Nat → Nat :=
  if RISBEE_STACK_SIZE - addr < 4 then mem
  else
    setMem (setMem (setMem (setMem mem addr (v % 256)) (addr + 1) (v / 256 % 256))
      (addr + 2) (v / 65536 % 256)) (addr + 3) (v / 16777216 % 256)

/-- Embedding of `putUint64` from `bits.go` on the slice `vm.Memory[addr:]`. -/
def putUint64 (mem : Nat → Nat) (addr v : Nat) : Nat → Nat :=
  if RISBEE_STACK_SIZE - addr < 8 then mem
  else
    setMem (setMem (setMem (setMem (setMem (setMem (setMem (setMem mem
      addr (v % 256))
      (addr + 1) (v / 256 % 256))
      (addr + 2) (v / 65536 % 256))
      (addr + 3) (v / 16777216 % 256))
      (addr + 4) (v / 4294967296 % 256))
      (addr + 5) (v / 1099511627776 % 256))
      (addr + 6) (v / 281474976710656 % 256))
      (addr + 7) (v / 72057594037927936 % 256)

/-- The architectural state of `RisbeeVm`.  Host callbacks are modelled by
a registered-flag and a trace of the calls made (argument list). -/
structure VmState where
  Memory : Nat → Nat
  Registers : Nat → Nat
  Pc : Nat
  ExitCode : Int
  Running : Bool
  ExitCbRegistered : Bool
  PanicCbRegistered : Bool
  ExitCalls : List Nat
  PanicCalls : List String

/-- Type of a registered syscall handler (`RisbeeVmSyscallFn`): it may
mutate the VM state and returns a `uint64`. -/
def SyscallFn : Type := VmState → VmState × Nat

/-- The syscall table (`vm.SysCalls`), passed alongside the state. -/
def SyscallTable : Type := Nat → Option SyscallFn

/-- Embedding of `Stop`: clears the running flag. -/
def Stop (vm : VmState) : VmState := { vm with Running := false }

/-- Embedding of `setExitCode`. -/
def setExitCode (vm : VmState) (c : Int) : VmState := { vm with ExitCode := c }

/-- Embedding of the VM's `panic` method: invoke the host panic callback if
registered, stop the VM, set the exit code to `-1`. -/
def vmPanic (vm : VmState) (msg : String) : VmState :=
  let vm1 := if vm.PanicCbRegistered then { vm with PanicCalls := vm.PanicCalls ++ [msg] } else vm
  setExitCode (Stop vm1) (-1)

/-- Embedding of `GetPointerParam`: syscall parameter from register `10 + i`. -/
def GetPointerParam (vm : VmState) (i : Nat) : Nat := vm.Registers (10 + i)

/-- Embedding of `handleSyscall`.  For code 0 the exit status is read from
`a0`, the exit code set, and — only inside the branch that requires a
registered exit callback — the callback invoked and the VM stopped.  For a
registered code the handler runs; otherwise the VM panics. -/
def handleSyscall (tbl : SyscallTable) (vm : VmState) (code : Nat) : VmState × Nat :=
  if code = 0 then
    let ec : Int := toSigned 64 (GetPointerParam vm 0)
    let vm1 := setExitCode vm ec
    let vm2 :=
      if vm1.ExitCbRegistered then
        Stop { vm1 with ExitCalls := vm1.ExitCalls ++ [toU64 ec] }
      else vm1
    (vm2, toU64 ec)
  else
    match tbl code with
    | some fn => fn vm
    | none => (vmPanic vm "Invalid system call.", 0)

/-- The fall-through `vm.Pc += 4` at the end of `execute` (`uint64` add). -/
def bump (vm : VmState) : VmState := { vm with Pc := (vm.Pc + 4) % 18446744073709551616 }

/-- The guarded destination write `if rd != 0 { vm.Registers[rd] = uint64(val) }`. -/
def writeRd (vm : VmState) (rd : Nat) (val : Int) : VmState :=
  if rd ≠ 0 then { vm with Registers := setReg vm.Registers rd (toU64 val) } else vm

/-- The guarded destination write for a value already of `uint64` type. -/
def writeRdU (vm : VmState) (rd v : Nat) : VmState :=
  if rd ≠ 0 then { vm with Registers := setReg vm.Registers rd (v % 18446744073709551616) } else vm

/-- Decoded primary opcode: `inst & 0x7F`. -/
def opcodeOf (inst : Nat) : Nat := inst % 128

/-- Decoded destination register: `(inst >> 7) & 0x1F`. -/
def rdOf (inst : Nat) : Nat := inst / 128 % 32

/-- Decoded funct3: `(inst >> 12) & 0x7`. -/
def f3Of (inst : Nat) : Nat := inst / 4096 % 8

/-- Decoded first source register: `(inst >> 15) & 0x1F`. -/
def rs1Of (inst : Nat) : Nat := inst / 32768 % 32

/-- Decoded second source register: `(inst >> 20) & 0x1F`. -/
def rs2Of (inst : Nat) : Nat := inst / 1048576 % 32

/-- Decoded funct7: `(inst >> 25) & 0x7F`. -/
def f7Of (inst : Nat) : Nat := inst / 33554432 % 128

/-- I-type immediate: `int64(int32(inst & 0xFFF00000) >> 20)` (arithmetic
shift of an `int32` is floor division). -/
def immI (inst : Nat) : Int :=
  Int.fdiv (toSigned 32 (inst / 1048576 % 4096 * 1048576)) 1048576

/-- S-type immediate: `int64(int32(((inst>>20)&0xFE0 | (inst>>7)&0x1F) << 20) >> 20)`. -/
def immS (inst : Nat) : Int :=
  Int.fdiv (toSigned 32 ((inst / 1048576 / 32 % 128 * 32 + inst / 128 % 32) * 1048576)) 1048576

/-- The reassembled J-type immediate bits of `executeJal` before sign
extension: `(inst>>11)&0x100000 | (inst>>20)&0x7FE | (inst>>9)&0x800 | inst&0xFF000`. -/
def jalBits (inst : Nat) : Nat :=
  inst / 2147483648 % 2 * 1048576 + inst / 2097152 % 1024 * 2 +
    inst / 1048576 % 2 * 2048 + inst / 4096 % 256 * 4096

/-- J-type immediate: `int64(int32(jalBits << 11) >> 11)`. -/
def immJ (inst : Nat) : Int :=
  Int.fdiv (toSigned 32 (jalBits inst * 2048)) 2048

/-- The reassembled B-type immediate bits of the branch case before sign
extension: `(inst>>19)&0x1000 | (inst>>20)&0x7E0 | (inst>>7)&0x1E | (inst<<4)&0x800`. -/
def branchBits (inst : Nat) : Nat :=
  inst / 2147483648 % 2 * 4096 + inst / 33554432 % 64 * 32 +
    inst / 256 % 16 * 2 + inst / 128 % 2 * 2048

/-- B-type immediate: `int64(int32(branchBits << 19) >> 19)`. -/
def immB (inst : Nat) : Int :=
  Int.fdiv (toSigned 32 (branchBits inst * 524288)) 524288

/-- U-type immediate: `int64(int32(inst & 0xFFFFF000))`. -/
def immU (inst : Nat) : Int := toSigned 32 (inst / 4096 % 1048576 * 4096)

/-- The LOAD case of `execute` (opcode 3).  Single-byte indexing requires
`addr < 65536` and slicing requires `addr ≤ 65536`; otherwise the Go
runtime aborts (`none`).  In the `funct3 = 7` default case the VM panics
and the zero-initialised `val` is still written to `rd`. -/
def executeLoad (vm : VmState) (inst : Nat) : Option VmState :=
  let rd := rdOf inst
  let rs1 := rs1Of inst
  let functionCode3 := f3Of inst
  let immediate := immI inst
  let addr := (vm.Registers rs1 + toU64 immediate) % 18446744073709551616
  if functionCode3 = 0 then
    if addr < RISBEE_STACK_SIZE then
      some (bump (writeRd vm rd (toSigned 8 (readByte vm.Memory addr))))
    else none
  else if functionCode3 = 1 then
    if addr ≤ RISBEE_STACK_SIZE then
      some (bump (writeRd vm rd (toSigned 16 (uint16LittleEndian vm.Memory addr))))
    else none
  else if functionCode3 = 2 then
    if addr ≤ RISBEE_STACK_SIZE then
      some (bump (writeRd vm rd (toSigned 32 (uint32LittleEndian vm.Memory addr))))
    else none
  else if functionCode3 = 3 then
    if addr ≤ RISBEE_STACK_SIZE then
      some (bump (writeRd vm rd (toSigned 64 (uint64LittleEndian vm.Memory addr))))
    else none
  else if functionCode3 = 4 then
    if addr < RISBEE_STACK_SIZE then
      some (bump (writeRd vm rd (readByte vm.Memory addr)))
    else none
  else if functionCode3 = 5 then
    if addr ≤ RISBEE_STACK_SIZE then
      some (bump (writeRd vm rd (uint16LittleEndian vm.Memory addr)))
    else none
  else if functionCode3 = 6 then
    if addr ≤ RISBEE_STACK_SIZE then
      some (bump (writeRd vm rd (uint32LittleEndian vm.Memory addr)))
    else none
  else
    some (bump (writeRd (vmPanic vm "Invalid load instruction.") rd 0))

/-- The STORE case of `execute` (opcode 35). -/
def executeStore (vm : VmState) (inst : Nat) : Option VmState :=
  let rs1 := rs1Of inst
  let rs2 := rs2Of inst
  let functionCode3 := f3Of inst
  let immediate := immS inst
  let addr := (vm.Registers rs1 + toU64 immediate) % 18446744073709551616
  let val := vm.Registers rs2
  if functionCode3 = 0 then
    if addr < RISBEE_STACK_SIZE then
      some (bump { vm with Memory := setMem vm.Memory addr (val % 256) })
    else none
  else if functionCode3 = 1 then
    if addr ≤ RISBEE_STACK_SIZE then
      some (bump { vm with Memory := putUint16 vm.Memory addr (val % 65536) })
    else none
  else if functionCode3 = 2 then
    if addr ≤ RISBEE_STACK_SIZE then
      some (bump { vm with Memory := putUint32 vm.Memory addr (val % 4294967296) })
    else none
  else if functionCode3 = 3 then
    if addr ≤ RISBEE_STACK_SIZE then
      some (bump { vm with Memory := putUint64 vm.Memory addr val })
    else none
  else
    some (bump (vmPanic vm "Invalid store instruction."))

/-- The OP-IMM case of `execute` (opcode 19).  On the unreachable inner
panic of the `funct3 = 5` sub-switch the unmodified `val` is still written
to `rd`. -/
def executeImm (vm : VmState) (inst : Nat) : Option VmState :=
  let rd := rdOf inst
  let rs1 := rs1Of inst
  let functionCode3 := f3Of inst
  let immediate := immI inst
  let shiftAmount := inst / 1048576 % 64
  let val : Int := toSigned 64 (vm.Registers rs1)
  let step : VmState × Int :=
    if functionCode3 = 0 then (vm, val + immediate)
    else if functionCode3 = 1 then (vm, shiftLeftInt64 val shiftAmount)
    else if functionCode3 = 2 then (vm, if val < immediate then 1 else 0)
    else if functionCode3 = 3 then (vm, if toU64 val < toU64 immediate then 1 else 0)
    else if functionCode3 = 4 then (vm, toSigned 64 (toU64 val ^^^ toU64 immediate))
    else if functionCode3 = 5 then
      (if inst / 67108864 % 64 / 16 = 0 then (vm, shiftRightInt64 val shiftAmount)
       else if inst / 67108864 % 64 / 16 = 1 then (vm, arithShiftRightInt64 val shiftAmount)
       else (vmPanic vm "Invalid immediate shift instruction.", val))
    else if functionCode3 = 6 then (vm, toSigned 64 (toU64 val ||| toU64 immediate))
    else if functionCode3 = 7 then (vm, toSigned 64 (toU64 val &&& toU64 immediate))
    else (vmPanic vm "Invalid immediate instruction.", val)
  some (bump (writeRd step.1 rd step.2))

/-- The OP-IMM-32 case of `execute` (opcode 27, `RISBEE_OPINST_IALU`),
exactly as the source computes it: `funct3 = 0` adds the full 64-bit value
and immediate, `funct3 = 1` left-shifts by the raw immediate, `funct3 = 5`
right-shifts by the `rs2` field, `funct3 = 6/7` are 64-bit shifts by the
masked immediate; no case truncates to 32 bits or sign-extends from 32. -/
def executeIalu (vm : VmState) (inst : Nat) : Option VmState :=
  let rd := rdOf inst
  let rs1 := rs1Of inst
  let rs2 := rs2Of inst
  let functionCode3 := f3Of inst
  let immediate := immI inst
  let val : Int := toSigned 64 (vm.Registers rs1)
  let step : VmState × Int :=
    if functionCode3 = 0 then (vm, val + immediate)
    else if functionCode3 = 1 then (vm, shiftLeftInt64 val immediate)
    else if functionCode3 = 5 then
      (if f7Of inst / 32 = 0 then (vm, shiftRightInt64 val rs2)
       else if f7Of inst / 32 = 1 then (vm, arithShiftRightInt64 val rs2)
       else (vmPanic vm "Invalid immediate shift instruction.", val))
    else if functionCode3 = 6 then (vm, shiftLeftInt64 val (toU64 immediate % 64))
    else if functionCode3 = 7 then (vm, shiftRightInt64 val (toU64 immediate % 64))
    else (vmPanic vm "Invalid immediate instruction.", val)
  some (bump (writeRd step.1 rd step.2))

/-- The OP case of `execute` (opcode 51, `RISBEE_OPINST_RT64`), dispatching
on `(funct7 << 3) | funct3`.  Division and remainder use Go's truncated
`/` and `%` (`Int.tdiv`/`Int.tmod`); in the default case the VM panics and
the zero-initialised `val` is written to `rd`. -/
def executeRt64 (vm : VmState) (inst : Nat) : Option VmState :=
  let rd := rdOf inst
  let key := f7Of inst * 8 + f3Of inst
  let val1 : Int := toSigned 64 (vm.Registers (rs1Of inst))
  let val2 : Int := toSigned 64 (vm.Registers (rs2Of inst))
  let step : VmState × Int :=
    if key = 0 then (vm, val1 + val2)
    else if key = 256 then (vm, val1 - val2)
    else if key = 1 then (vm, shiftLeftInt64 val1 (toU64 val2 % 32))
    else if key = 2 then (vm, if val1 < val2 then 1 else 0)
    else if key = 3 then (vm, if toU64 val1 < toU64 val2 then 1 else 0)
    else if key = 4 then (vm, toSigned 64 (toU64 val1 ^^^ toU64 val2))
    else if key = 5 then (vm, shiftRightInt64 val1 (toU64 val2 % 32))
    else if key = 261 then (vm, arithShiftRightInt64 val1 (toU64 val2 % 32))
    else if key = 6 then (vm, toSigned 64 (toU64 val1 ||| toU64 val2))
    else if key = 7 then (vm, toSigned 64 (toU64 val1 &&& toU64 val2))
    else if key = 8 then (vm, val1 * val2)
    else if key = 9 then (vm, shiftRightInt128 (wrap64 (val1 * val2)) 64)
    else if key = 10 then
      (vm, toSigned 64 (toU64 (shiftRightInt128 (wrap64 (val1 * toSigned 64 (toU64 val2))) 64)))
    else if key = 11 then
      (vm, toSigned 64 (toU64 (shiftRightInt128
        (wrap64 (toSigned 64 (toU64 val1) * toSigned 64 (toU64 val2))) 64)))
    else if key = 12 then
      (vm, if val1 = -9223372036854775808 ∧ val2 = -1 then -9223372036854775808
           else if val2 = 0 then -1
           else Int.tdiv val1 val2)
    else if key = 13 then
      (vm, if toU64 val2 = 0 then -1 else (toU64 val1 / toU64 val2 : Nat))
    else if key = 14 then
      (vm, if val1 = -9223372036854775808 ∧ val2 = -1 then 0
           else if val2 = 0 then val1
           else Int.tmod val1 val2)
    else if key = 15 then
      (vm, if toU64 val2 = 0 then (toU64 val1 : Nat) else (toU64 val1 % toU64 val2 : Nat))
    else (vmPanic vm "Invalid arith instruction.", 0)
  some (bump (writeRd step.1 rd step.2))

/-- The OP-32 case of `execute` (opcode 59, `RISBEE_OPINST_RT32`), exactly
as the source computes it (ADDW/SUBW do not truncate to 32 bits; the
shift variants shift the full 64-bit value). -/
def executeRt32 (vm : VmState) (inst : Nat) : Option VmState :=
  let rd := rdOf inst
  let key := f7Of inst * 8 + f3Of inst
  let val1 : Int := toSigned 64 (vm.Registers (rs1Of inst))
  let val2 : Int := toSigned 64 (vm.Registers (rs2Of inst))
  let step : VmState × Int :=
    if key = 0 then (vm, val1 + val2)
    else if key = 256 then (vm, val1 - val2)
    else if key = 1 then (vm, shiftLeftInt64 val1 (toU64 val2 % 32))
    else if key = 5 then (vm, shiftRightInt64 val1 (toU64 val2 % 32))
    else if key = 261 then (vm, arithShiftRightInt64 val1 (toU64 val2 % 32))
    else if key = 8 then (vm, wrap32 (toSigned 32 (toU64 val1) * toSigned 32 (toU64 val2)))
    else if key = 12 then
      (vm, if toSigned 32 (toU64 val1) = -2147483648 ∧ toSigned 32 (toU64 val2) = -1
           then -2147483648
           else if toSigned 32 (toU64 val2) = 0 then -1
           else Int.tdiv (toSigned 32 (toU64 val1)) (toSigned 32 (toU64 val2)))
    else if key = 13 then
      (vm, if toU64 val2 % 4294967296 = 0 then -1
           else (toU64 val1 % 4294967296 / (toU64 val2 % 4294967296) : Nat))
    else if key = 14 then
      (vm, if toSigned 32 (toU64 val1) = -2147483648 ∧ toSigned 32 (toU64 val2) = -1 then 0
           else if toSigned 32 (toU64 val2) = 0 then toSigned 32 (toU64 val1)
           else Int.tmod (toSigned 32 (toU64 val1)) (toSigned 32 (toU64 val2)))
    else if key = 15 then
      (vm, if toU64 val2 % 4294967296 = 0 then (toU64 val1 % 4294967296 : Nat)
           else (toU64 val1 % 4294967296 % (toU64 val2 % 4294967296) : Nat))
    else (vmPanic vm "Invalid store doubleword instruction.", 0)
  some (bump (writeRd step.1 rd step.2))

/-- The LUI case of `execute` (opcode 55). -/
def executeLui (vm : VmState) (inst : Nat) : Option VmState :=
  some (bump (writeRd vm (rdOf inst) (immU inst)))

/-- The AUIPC case of `execute` (opcode 23): `rd ← uint64(pc + uint64(imm))`. -/
def executeAuipc (vm : VmState) (inst : Nat) : Option VmState :=
  some (bump (writeRdU vm (rdOf inst) ((vm.Pc + toU64 (immU inst)) % 18446744073709551616)))

/-- The JAL case of `execute` (opcode 111): link register written first
(with the old PC), then `PC ← PC + imm`; no fall-through `PC += 4`. -/
def executeJal (vm : VmState) (inst : Nat) : Option VmState :=
  let vm1 := writeRdU vm (rdOf inst) ((vm.Pc + 4) % 18446744073709551616)
  some { vm1 with Pc := (vm1.Pc + toU64 (immJ inst)) % 18446744073709551616 }

/-- The JALR case of `execute` (opcode 103): the new PC is
`uint64(int64(rs1 + imm) & -2)`, i.e. the sum with the low bit cleared;
the link value `pc + 4` is captured before the PC update. -/
def executeJalr (vm : VmState) (inst : Nat) : Option VmState :=
  let pc := (vm.Pc + 4) % 18446744073709551616
  let t := (vm.Registers (rs1Of inst) + toU64 (immI inst)) % 18446744073709551616
  let vm1 := { vm with Pc := t - t % 2 }
  some (writeRdU vm1 (rdOf inst) pc)

/-- The BRANCH case of `execute` (opcode 99).  On the default `funct3` the
VM panics and the zero-initialised condition stays false, so the PC falls
through to `PC + 4`. -/
def executeBranch (vm : VmState) (inst : Nat) : Option VmState :=
  let functionCode3 := f3Of inst
  let val1 := vm.Registers (rs1Of inst)
  let val2 := vm.Registers (rs2Of inst)
  let step : VmState × Bool :=
    if functionCode3 = 0 then (vm, decide (val1 = val2))
    else if functionCode3 = 1 then (vm, decide (val1 ≠ val2))
    else if functionCode3 = 4 then (vm, decide (toSigned 64 val1 < toSigned 64 val2))
    else if functionCode3 = 5 then (vm, decide (toSigned 64 val1 ≥ toSigned 64 val2))
    else if functionCode3 = 6 then (vm, decide (val1 < val2))
    else if functionCode3 = 7 then (vm, decide (val1 ≥ val2))
    else (vmPanic vm "Invalid branch instruction.", false)
  some
    (if step.2 then
      { step.1 with Pc := (step.1.Pc + toU64 (immB inst)) % 18446744073709551616 }
    else bump step.1)

/-- The SYSTEM case of `execute` (opcode 115): `funct12 = 0` dispatches the
syscall whose code is in `r17` and stores the result in `r10`;
`funct12 = 1` sets the exit code to `-1` and stops; anything else panics.
All three paths fall through to `PC += 4`. -/
def executeCall (tbl : SyscallTable) (vm : VmState) (inst : Nat) : Option VmState :=
  let functionCode11 := inst / 1048576 % 4096
  if functionCode11 = 0 then
    let res := handleSyscall tbl vm (vm.Registers 17)
    some (bump { res.1 with Registers := setReg res.1.Registers 10 res.2 })
  else if functionCode11 = 1 then
    some (bump { vm with ExitCode := -1, Running := false })
  else
    some (bump (vmPanic vm "Invalid system instruction."))

/-- Embedding of `execute`: decode the primary opcode and dispatch.  The
instruction is a `uint32` in Go, hence the reduction modulo `2^32`. -/
def execute (tbl : SyscallTable) (vm : VmState) (inst0 : Nat) : Option VmState :=
  if opcodeOf (inst0 % 4294967296) = 3 then executeLoad vm (inst0 % 4294967296)
  else if opcodeOf (inst0 % 4294967296) = 35 then executeStore vm (inst0 % 4294967296)
  else if opcodeOf (inst0 % 4294967296) = 19 then executeImm vm (inst0 % 4294967296)
  else if opcodeOf (inst0 % 4294967296) = 27 then executeIalu vm (inst0 % 4294967296)
  else if opcodeOf (inst0 % 4294967296) = 51 then executeRt64 vm (inst0 % 4294967296)
  else if opcodeOf (inst0 % 4294967296) = 59 then executeRt32 vm (inst0 % 4294967296)
  else if opcodeOf (inst0 % 4294967296) = 55 then executeLui vm (inst0 % 4294967296)
  else if opcodeOf (inst0 % 4294967296) = 23 then executeAuipc vm (inst0 % 4294967296)
  else if opcodeOf (inst0 % 4294967296) = 111 then executeJal vm (inst0 % 4294967296)
  else if opcodeOf (inst0 % 4294967296) = 103 then executeJalr vm (inst0 % 4294967296)
  else if opcodeOf (inst0 % 4294967296) = 99 then executeBranch vm (inst0 % 4294967296)
  else if opcodeOf (inst0 % 4294967296) = 15 then some (bump vm)
  else if opcodeOf (inst0 % 4294967296) = 115 then executeCall tbl vm (inst0 % 4294967296)
  else some (bump (vmPanic vm "Invalid opcode instruction."))

/-- Embedding of `fetch`: slice `vm.Memory[Pc : Pc+4]` (Go runtime abort
when the slice bounds are violated, including `uint64` wraparound of
`Pc + 4`), read little-endian. -/
def fetch (vm : VmState) : Option Nat :=
  let hi := (vm.Pc + 4) % 18446744073709551616
  if vm.Pc ≤ hi ∧ hi ≤ RISBEE_STACK_SIZE then
    some (uint32LittleEndian vm.Memory vm.Pc)
  else none

/-- Embedding of the body of `Run` (`for vm.Running { execute(fetch()) }`),
with a fuel parameter to make the possibly diverging loop total.  Running
out of fuel returns the current state; a Go runtime abort is `none`. -/
def runLoop (tbl : SyscallTable) : Nat → VmState → Option VmState
  | 0, vm => some vm
  | fuel + 1, vm =>
    if vm.Running then
      (fetch vm).bind (fun inst => (execute tbl vm inst).bind (runLoop tbl fuel))
    else some vm

/-- Copy loop of Go's `copy(vm.Memory[4096:4096+size], Data)`: write the
payload bytes at consecutive addresses starting from the given offset. -/
def copyBytes : (Nat → Nat) → Nat → List Nat → Nat → Nat
  | mem, _, [] => mem
  | mem, o, b :: rest => copyBytes (setMem mem o (b % 256)) (o + 1) rest

/-- Embedding of `LoadFromBytes`: reject an empty payload or one larger
than `RISBEE_STACK_SIZE - 4096`; on success copy the payload to offset
4096 and set register 2 to `RISBEE_STACK_SIZE`. -/
def LoadFromBytes (vm : VmState) (data : List Nat) : VmState × Bool :=
  if data.length = 0 ∨ data.length > RISBEE_STACK_SIZE - 4096 then
    (vm, false)
  else
    ({ vm with
        Memory := copyBytes vm.Memory 4096 data,
        Registers := setReg vm.Registers 2 RISBEE_STACK_SIZE }, true)

/-- Encoding of an R-type (or any) instruction word from its fields,
inverse of the decode functions on in-range fields. -/
def encodeR (op rd f3 rs1 rs2 f7 : Nat) : Nat :=
  op + rd * 128 + f3 * 4096 + rs1 * 32768 + rs2 * 1048576 + f7 * 33554432

/-- Characterisation, read off the branch structure of `execute`, of the
instructions whose execution reaches a `vm.panic(...)` call: an unknown
primary opcode, an unknown `funct3`/`funct6`/`funct7` sub-field inside a
recognized opcode, an unknown SYSTEM `funct12`, or an unregistered
non-zero syscall code. -/
def instPanics (tbl : SyscallTable) (vm : VmState) (inst0 : Nat) : Bool :=
  let inst := inst0 % 4294967296
  let opcode := opcodeOf inst
  let f3 := f3Of inst
  let key := f7Of inst * 8 + f3
  if opcode = 3 then f3 == 7
  else if opcode = 35 then decide (4 ≤ f3)
  else if opcode = 19 then f3 == 5 && decide (2 ≤ inst / 67108864 % 64 / 16)
  else if opcode = 27 then
    (f3 == 2 || f3 == 3 || f3 == 4) || (f3 == 5 && decide (2 ≤ f7Of inst / 32))
  else if opcode = 51 then !(decide (key ≤ 15) || key == 256 || key == 261)
  else if opcode = 59 then
    !(key == 0 || key == 1 || key == 5 || key == 8 || key == 12 || key == 13 ||
      key == 14 || key == 15 || key == 256 || key == 261)
  else if opcode = 55 then false
  else if opcode = 23 then false
  else if opcode = 111 then false
  else if opcode = 103 then false
  else if opcode = 99 then f3 == 2 || f3 == 3
  else if opcode = 15 then false
  else if opcode = 115 then
    let f11 := inst / 1048576 % 4096
    if f11 = 0 then vm.Registers 17 != 0 && (tbl (vm.Registers 17)).isNone
    else f11 != 1
  else true

/-- Statement that a step ending in state `vm1` carried out the panic
policy relative to the pre-state `vm`: exit code `−1`, running flag
cleared, and exactly one panic-callback invocation recorded when (and
only when) a panic callback is registered. -/
def panickedFrom (vm1 vm : VmState) : Prop :=
  vm1.ExitCode = -1 ∧ vm1.Running = false ∧
    vm1.PanicCalls.length = vm.PanicCalls.length + (if vm.PanicCbRegistered then 1 else 0)

/-- The empty syscall table: no host handler registered. -/
def tblEmpty : SyscallTable := fun _ => none

/-- A baseline state: zeroed memory and registers, PC at the load offset,
running, no callbacks registered. -/
def vm0 : VmState where
  Memory := fun _ => 0
  Registers := fun _ => 0
  Pc := 4096
  ExitCode := 0
  Running := true
  ExitCbRegistered := false
  PanicCbRegistered := false
  ExitCalls := []
  PanicCalls := []

/-- State for the exit-syscall test: `a7 = 0`, `a0 = 42`, no exit callback. -/
def vmExitTest : VmState :=
  { vm0 with Registers := fun i => if i = 10 then 42 else 0 }

/-- State for the OP shift tests: `r5 = 1`, `r6 = 32`, `r7 = 2^63`. -/
def vmShiftTest : VmState :=
  { vm0 with Registers := fun i =>
      if i = 5 then 1 else if i = 6 then 32 else if i = 7 then 9223372036854775808 else 0 }

/-- State for the high-multiply tests: `r5 = r6 = 2^32`. -/
def vmMulhTest : VmState :=
  { vm0 with Registers := fun i => if i = 5 then 4294967296 else if i = 6 then 4294967296 else 0 }

/-- State for the OP-IMM-32 tests: `r5 = 2^31`. -/
def vmIaluTest : VmState :=
  { vm0 with Registers := fun i => if i = 5 then 2147483648 else 0 }

/-- State for the out-of-range memory tests: `r5 = 65535`, `r6 = 70000`. -/
def vmRangeTest : VmState :=
  { vm0 with Registers := fun i => if i = 5 then 65535 else if i = 6 then 70000 else 0 }

/-- State for the JALR misalignment test: `r5 = 2`. -/
def vmJalrTest : VmState :=
  { vm0 with Registers := fun i => if i = 5 then 2 else 0 }

/-- State for the division corner-case tests: `r5 = 7`, `r6 = 0`,
`r7 = 2^63` (the bit pattern of `INT64_MIN`), `r8 = 2^64 - 1` (the bit
pattern of `-1`). -/
def vmDivTest : VmState :=
  { vm0 with Registers := fun i =>
      if i = 5 then 7 else if i = 7 then 9223372036854775808
      else if i = 8 then 18446744073709551615 else 0 }

/-- State for the panic-policy test: a panic callback is registered. -/
def vmPanicTest : VmState := { vm0 with PanicCbRegistered := true }

/-- Result of executing the all-ones (invalid-opcode) instruction on
`vmPanicTest`: the VM panic path followed by the fall-through `PC += 4`. -/
def vmPanicRes : VmState := bump (vmPanic vmPanicTest "Invalid opcode instruction.")

/-- Observation of the fields of a post-step state that the corner-case
claims talk about: destination register, running flag, exit code,
panic-callback trace, program counter. -/
def stepView (rd : Nat) (s : VmState) : Nat × Bool × Int × List String × Nat :=
  (s.Registers rd, s.Running, s.ExitCode, s.PanicCalls, s.Pc)

/-! ### Helper lemmas about the state transformers -/

@[simp]
theorem bump_Registers (vm : VmState) : (bump vm).Registers = vm.Registers := rfl

@[simp]
theorem bump_Running (vm : VmState) : (bump vm).Running = vm.Running := rfl

@[simp]
theorem bump_ExitCode (vm : VmState) : (bump vm).ExitCode = vm.ExitCode := rfl

@[simp]
theorem bump_PanicCalls (vm : VmState) : (bump vm).PanicCalls = vm.PanicCalls := rfl

@[simp]
theorem bump_Pc (vm : VmState) : (bump vm).Pc = (vm.Pc + 4) % 18446744073709551616 := rfl

@[simp]
theorem writeRd_Running (vm : VmState) (rd : Nat) (v : Int) :
    (writeRd vm rd v).Running = vm.Running := by
  unfold writeRd; split <;> rfl

@[simp]
theorem writeRd_ExitCode (vm : VmState) (rd : Nat) (v : Int) :
    (writeRd vm rd v).ExitCode = vm.ExitCode := by
  unfold writeRd; split <;> rfl

@[simp]
theorem writeRd_PanicCalls (vm : VmState) (rd : Nat) (v : Int) :
    (writeRd vm rd v).PanicCalls = vm.PanicCalls := by
  unfold writeRd; split <;> rfl

@[simp]
theorem writeRd_Pc (vm : VmState) (rd : Nat) (v : Int) :
    (writeRd vm rd v).Pc = vm.Pc := by
  unfold writeRd; split <;> rfl

@[simp]
theorem writeRd_Registers_zero (vm : VmState) (rd : Nat) (v : Int) :
    (writeRd vm rd v).Registers 0 = vm.Registers 0 := by
  unfold writeRd setReg
  split_ifs with h
  · show (if 0 = rd then toU64 v else vm.Registers 0) = vm.Registers 0
    rw [if_neg (fun hh => h hh.symm)]
  · rfl

theorem writeRd_Registers_rd (vm : VmState) (rd : Nat) (v : Int) (h : rd ≠ 0) :
    (writeRd vm rd v).Registers rd = toU64 v := by
  unfold writeRd setReg
  rw [if_pos h]
  show (if rd = rd then toU64 v else vm.Registers rd) = toU64 v
  rw [if_pos rfl]

@[simp]
theorem writeRdU_Running (vm : VmState) (rd v : Nat) :
    (writeRdU vm rd v).Running = vm.Running := by
  unfold writeRdU; split <;> rfl

@[simp]
theorem writeRdU_ExitCode (vm : VmState) (rd v : Nat) :
    (writeRdU vm rd v).ExitCode = vm.ExitCode := by
  unfold writeRdU; split <;> rfl

@[simp]
theorem writeRdU_PanicCalls (vm : VmState) (rd v : Nat) :
    (writeRdU vm rd v).PanicCalls = vm.PanicCalls := by
  unfold writeRdU; split <;> rfl

@[simp]
theorem writeRdU_Pc (vm : VmState) (rd v : Nat) :
    (writeRdU vm rd v).Pc = vm.Pc := by
  unfold writeRdU; split <;> rfl

@[simp]
theorem writeRdU_Registers_zero (vm : VmState) (rd v : Nat) :
    (writeRdU vm rd v).Registers 0 = vm.Registers 0 := by
  unfold writeRdU setReg
  split_ifs with h
  · show (if 0 = rd then v % 18446744073709551616 else vm.Registers 0) = vm.Registers 0
    rw [if_neg (fun hh => h hh.symm)]
  · rfl

@[simp]
theorem vmPanic_ExitCode (vm : VmState) (msg : String) : (vmPanic vm msg).ExitCode = -1 := rfl

@[simp]
theorem vmPanic_Running (vm : VmState) (msg : String) : (vmPanic vm msg).Running = false := by
  unfold vmPanic Stop setExitCode
  split <;> rfl

@[simp]
theorem vmPanic_Registers (vm : VmState) (msg : String) :
    (vmPanic vm msg).Registers = vm.Registers := by
  unfold vmPanic Stop setExitCode
  split <;> rfl

@[simp]
theorem vmPanic_Pc (vm : VmState) (msg : String) : (vmPanic vm msg).Pc = vm.Pc := by
  unfold vmPanic Stop setExitCode
  split <;> rfl

theorem vmPanic_PanicCalls (vm : VmState) (msg : String) :
    (vmPanic vm msg).PanicCalls =
      vm.PanicCalls ++ (if vm.PanicCbRegistered then [msg] else []) := by
  unfold vmPanic Stop setExitCode
  split_ifs with h <;> simp

theorem vmPanic_PanicCalls_length (vm : VmState) (msg : String) :
    (vmPanic vm msg).PanicCalls.length =
      vm.PanicCalls.length + (if vm.PanicCbRegistered then 1 else 0) := by
  rw [vmPanic_PanicCalls]
  split_ifs <;> simp

/-- After the running flag is cleared, the fetch-execute loop performs no
further step: `Run`'s loop exits immediately. -/
theorem runLoop_halted (tbl : SyscallTable) (fuel : Nat) (vm : VmState)
    (h : vm.Running = false) : runLoop tbl fuel vm = some vm := by
  cases fuel with
  | zero => rfl
  | succ n => unfold runLoop; rw [h]; simp

/-! ### Helper lemmas about the integer conversions -/

theorem toSigned64_eq (n : Nat) : toSigned 64 n =
    if n % 18446744073709551616 < 9223372036854775808 then (n % 18446744073709551616 : Int)
    else (n % 18446744073709551616 : Int) - 18446744073709551616 := by
  unfold toSigned; norm_num

theorem toSigned32_eq (n : Nat) : toSigned 32 n =
    if n % 4294967296 < 2147483648 then (n % 4294967296 : Int)
    else (n % 4294967296 : Int) - 4294967296 := by
  unfold toSigned; norm_num

theorem toU64_toSigned64 (x : Nat) (h : x < 18446744073709551616) :
    toU64 (toSigned 64 x) = x := by
  rw [toSigned64_eq]
  unfold toU64
  split_ifs <;> omega

theorem toU64_lt (i : Int) : toU64 i < 18446744073709551616 := by
  unfold toU64; omega

/-! ### Decode lemmas for encoded instruction words -/

theorem encodeR_lt (op rd f3 rs1 rs2 f7 : Nat) (h1 : op < 128) (h2 : rd < 32) (h3 : f3 < 8)
    (h4 : rs1 < 32) (h5 : rs2 < 32) (h6 : f7 < 128) :
    encodeR op rd f3 rs1 rs2 f7 < 4294967296 := by
  unfold encodeR; omega

theorem opcodeOf_encodeR (op rd f3 rs1 rs2 f7 : Nat) (h1 : op < 128) :
    opcodeOf (encodeR op rd f3 rs1 rs2 f7) = op := by
  unfold opcodeOf encodeR; omega

theorem rdOf_encodeR (op rd f3 rs1 rs2 f7 : Nat) (h1 : op < 128) (h2 : rd < 32) :
    rdOf (encodeR op rd f3 rs1 rs2 f7) = rd := by
  unfold rdOf encodeR; omega

theorem f3Of_encodeR (op rd f3 rs1 rs2 f7 : Nat) (h1 : op < 128) (h2 : rd < 32) (h3 : f3 < 8) :
    f3Of (encodeR op rd f3 rs1 rs2 f7) = f3 := by
  unfold f3Of encodeR; omega

theorem rs1Of_encodeR (op rd f3 rs1 rs2 f7 : Nat) (h1 : op < 128) (h2 : rd < 32) (h3 : f3 < 8)
    (h4 : rs1 < 32) :
    rs1Of (encodeR op rd f3 rs1 rs2 f7) = rs1 := by
  unfold rs1Of encodeR; omega

theorem rs2Of_encodeR (op rd f3 rs1 rs2 f7 : Nat) (h1 : op < 128) (h2 : rd < 32) (h3 : f3 < 8)
    (h4 : rs1 < 32) (h5 : rs2 < 32) :
    rs2Of (encodeR op rd f3 rs1 rs2 f7) = rs2 := by
  unfold rs2Of encodeR; omega

theorem f7Of_encodeR (op rd f3 rs1 rs2 f7 : Nat) (h1 : op < 128) (h2 : rd < 32) (h3 : f3 < 8)
    (h4 : rs1 < 32) (h5 : rs2 < 32) (h6 : f7 < 128) :
    f7Of (encodeR op rd f3 rs1 rs2 f7) = f7 := by
  unfold f7Of encodeR; omega

theorem execute_opcode51 (tbl : SyscallTable) (vm : VmState) (rd f3 rs1 rs2 f7 : Nat)
    (h2 : rd < 32) (h3 : f3 < 8) (h4 : rs1 < 32) (h5 : rs2 < 32) (h6 : f7 < 128) :
    execute tbl vm (encodeR 51 rd f3 rs1 rs2 f7) = executeRt64 vm (encodeR 51 rd f3 rs1 rs2 f7) := by
  have hm : encodeR 51 rd f3 rs1 rs2 f7 % 4294967296 = encodeR 51 rd f3 rs1 rs2 f7 :=
    Nat.mod_eq_of_lt (encodeR_lt 51 rd f3 rs1 rs2 f7 (by norm_num) h2 h3 h4 h5 h6)
  have ho := opcodeOf_encodeR 51 rd f3 rs1 rs2 f7 (by norm_num)
  simp only [execute, hm, ho]
  norm_num

theorem toSigned64_zero : toSigned 64 0 = 0 := by
  rw [toSigned64_eq]; norm_num

theorem toSigned64_min : toSigned 64 9223372036854775808 = -9223372036854775808 := by
  rw [toSigned64_eq]; norm_num

theorem toSigned64_neg_one : toSigned 64 18446744073709551615 = -1 := by
  rw [toSigned64_eq]; norm_num

theorem toU64_neg_one : toU64 (-1) = 18446744073709551615 := by decide

theorem toU64_min : toU64 (-9223372036854775808) = 9223372036854775808 := by decide

theorem toU64_zero : toU64 0 = 0 := rfl

/-! ### C7 — division and remainder corner cases -/

/-- C7: for every 64-bit dividend `x`, DIV with divisor 0 yields the
all-ones value `2^64 - 1` (`−1`), DIV of `INT64_MIN` by `−1` yields
`INT64_MIN`, REM with divisor 0 yields `x`, REM of `INT64_MIN` by `−1`
yields 0, and in each case execution proceeds silently to the next
instruction: the running flag, exit code and panic trace are untouched
and the PC advances by 4. -/
theorem div_rem_corner_cases (tbl : SyscallTable) (vm : VmState)
    (rd ra rb rc rdm x : Nat)
    (hrd : rd < 32) (hrd0 : rd ≠ 0) (hra : ra < 32) (hrb : rb < 32)
    (hrc : rc < 32) (hrdm : rdm < 32)
    (hx : x < 18446744073709551616)
    (hA : vm.Registers ra = x) (hB : vm.Registers rb = 0)
    (hC : vm.Registers rc = 9223372036854775808)
    (hD : vm.Registers rdm = 18446744073709551615) :
    (execute tbl vm (encodeR 51 rd 4 ra rb 1)).map (stepView rd) =
      some (18446744073709551615, vm.Running, vm.ExitCode, vm.PanicCalls,
        (vm.Pc + 4) % 18446744073709551616) ∧
    (execute tbl vm (encodeR 51 rd 4 rc rdm 1)).map (stepView rd) =
      some (9223372036854775808, vm.Running, vm.ExitCode, vm.PanicCalls,
        (vm.Pc + 4) % 18446744073709551616) ∧
    (execute tbl vm (encodeR 51 rd 6 ra rb 1)).map (stepView rd) =
      some (x, vm.Running, vm.ExitCode, vm.PanicCalls,
        (vm.Pc + 4) % 18446744073709551616) ∧
    (execute tbl vm (encodeR 51 rd 6 rc rdm 1)).map (stepView rd) =
      some (0, vm.Running, vm.ExitCode, vm.PanicCalls,
        (vm.Pc + 4) % 18446744073709551616) := by
  refine ⟨?_, ?_, ?_, ?_⟩
  · rw [execute_opcode51 tbl vm rd 4 ra rb 1 hrd (by norm_num) hra hrb (by norm_num)]
    have erd := rdOf_encodeR 51 rd 4 ra rb 1 (by norm_num) hrd
    have e3 := f3Of_encodeR 51 rd 4 ra rb 1 (by norm_num) hrd (by norm_num)
    have e1 := rs1Of_encodeR 51 rd 4 ra rb 1 (by norm_num) hrd (by norm_num) hra
    have e2 := rs2Of_encodeR 51 rd 4 ra rb 1 (by norm_num) hrd (by norm_num) hra hrb
    have e7 := f7Of_encodeR 51 rd 4 ra rb 1 (by norm_num) hrd (by norm_num) hra hrb (by norm_num)
    simp only [executeRt64, erd, e3, e1, e2, e7, hA, hB]
    norm_num [toSigned64_zero]
    simp [stepView, writeRd_Registers_rd _ _ _ hrd0, toU64_neg_one]
  · rw [execute_opcode51 tbl vm rd 4 rc rdm 1 hrd (by norm_num) hrc hrdm (by norm_num)]
    have erd := rdOf_encodeR 51 rd 4 rc rdm 1 (by norm_num) hrd
    have e3 := f3Of_encodeR 51 rd 4 rc rdm 1 (by norm_num) hrd (by norm_num)
    have e1 := rs1Of_encodeR 51 rd 4 rc rdm 1 (by norm_num) hrd (by norm_num) hrc
    have e2 := rs2Of_encodeR 51 rd 4 rc rdm 1 (by norm_num) hrd (by norm_num) hrc hrdm
    have e7 := f7Of_encodeR 51 rd 4 rc rdm 1 (by norm_num) hrd (by norm_num) hrc hrdm (by norm_num)
    simp only [executeRt64, erd, e3, e1, e2, e7, hC, hD]
    norm_num [toSigned64_min, toSigned64_neg_one]
    simp [stepView, writeRd_Registers_rd _ _ _ hrd0, toU64_min]
  · rw [execute_opcode51 tbl vm rd 6 ra rb 1 hrd (by norm_num) hra hrb (by norm_num)]
    have erd := rdOf_encodeR 51 rd 6 ra rb 1 (by norm_num) hrd
    have e3 := f3Of_encodeR 51 rd 6 ra rb 1 (by norm_num) hrd (by norm_num)
    have e1 := rs1Of_encodeR 51 rd 6 ra rb 1 (by norm_num) hrd (by norm_num) hra
    have e2 := rs2Of_encodeR 51 rd 6 ra rb 1 (by norm_num) hrd (by norm_num) hra hrb
    have e7 := f7Of_encodeR 51 rd 6 ra rb 1 (by norm_num) hrd (by norm_num) hra hrb (by norm_num)
    simp only [executeRt64, erd, e3, e1, e2, e7, hA, hB]
    norm_num [toSigned64_zero]
    simp [stepView, writeRd_Registers_rd _ _ _ hrd0, toU64_toSigned64 x hx]
  · rw [execute_opcode51 tbl vm rd 6 rc rdm 1 hrd (by norm_num) hrc hrdm (by norm_num)]
    have erd := rdOf_encodeR 51 rd 6 rc rdm 1 (by norm_num) hrd
    have e3 := f3Of_encodeR 51 rd 6 rc rdm 1 (by norm_num) hrd (by norm_num)
    have e1 := rs1Of_encodeR 51 rd 6 rc rdm 1 (by norm_num) hrd (by norm_num) hrc
    have e2 := rs2Of_encodeR 51 rd 6 rc rdm 1 (by norm_num) hrd (by norm_num) hrc hrdm
    have e7 := f7Of_encodeR 51 rd 6 rc rdm 1 (by norm_num) hrd (by norm_num) hrc hrdm (by norm_num)
    simp only [executeRt64, erd, e3, e1, e2, e7, hC, hD]
    norm_num [toSigned64_min, toSigned64_neg_one]
    simp [stepView, writeRd_Registers_rd _ _ _ hrd0, toU64_zero]

/-- Witness for C7 at a concrete state: `r5 = 7`, `r6 = 0`, `r7 = 2^63`,
`r8 = 2^64 − 1`, destination `r1`; `DIV r1, r5, r6` yields all-ones. -/
theorem div_rem_corner_cases_witness :
    (execute tblEmpty vmDivTest (encodeR 51 1 4 5 6 1)).map (stepView 1) =
      some (18446744073709551615, vmDivTest.Running, vmDivTest.ExitCode, vmDivTest.PanicCalls,
        (vmDivTest.Pc + 4) % 18446744073709551616) :=
  (div_rem_corner_cases tblEmpty vmDivTest 1 5 6 7 8 7
    (by norm_num) (by norm_num) (by norm_num) (by norm_num) (by norm_num) (by norm_num)
    (by norm_num) rfl rfl rfl rfl).1

/-! ### C10 — LoadFromBytes leaves the state unchanged on failure -/

/-- C10: whenever `LoadFromBytes` returns `false`, the entire VM state —
memory, all registers (including register 2), PC, exit code, running
flag and callback traces — is exactly as before the call; register 2 is
assigned `RISBEE_STACK_SIZE` only on the success path. -/
theorem loadFromBytes_failure_frame (vm : VmState) (data : List Nat) :
    ((LoadFromBytes vm data).2 = false → (LoadFromBytes vm data).1 = vm) ∧
    ((LoadFromBytes vm data).2 = true →
      (LoadFromBytes vm data).1.Registers 2 = RISBEE_STACK_SIZE) := by
  unfold LoadFromBytes
  split_ifs with h
  · exact ⟨fun _ => rfl, fun hc => absurd hc (by simp)⟩
  · refine ⟨fun hc => absurd hc (by simp), fun _ => ?_⟩
    show setReg vm.Registers 2 RISBEE_STACK_SIZE 2 = RISBEE_STACK_SIZE
    unfold setReg
    simp

/-- Witness for C10: the empty payload is rejected and the state of a
concrete VM is returned untouched. -/
theorem loadFromBytes_failure_frame_witness :
    (LoadFromBytes vm0 []).2 = false ∧ (LoadFromBytes vm0 []).1 = vm0 :=
  ⟨rfl, (loadFromBytes_failure_frame vm0 []).1 rfl⟩

/-! ### C1 — exit syscall without a registered exit callback -/

/-- C1, evaluated at the failing input: an ECALL with `r17 = 0` and
`r10 = 42` on a VM with *no* registered exit callback sets the exit code
to 42 and writes `r10`, but leaves the running flag `true` — `Stop()` is
only called inside the callback-registered branch of `handleSyscall`, so
`run()` does not return here, contradicting the claim that the running
flag is cleared whether or not an exit callback is registered. -/
theorem exit_syscall_without_callback :
    (execute tblEmpty vmExitTest 115).map
        (fun s => (s.ExitCode, s.Running, s.Registers 10, s.Pc, s.ExitCalls)) =
      some (42, true, 42, 4100, []) := by
  decide

/-! ### C2 — 64-bit register-register shifts mask the amount to 5 bits -/

/-- C2, evaluated at the failing input: with `r5 = 1`, `r6 = 32`,
`r7 = 2^63`, the OP instructions SLL, SRL and SRA mask the shift amount
`rs2 & 0x1F`, so a shift by 32 becomes a shift by 0: SLL yields 1 (the
claim's 6-bit mask predicts `2^32`), SRL and SRA yield `2^63` unchanged
(the claim predicts `2^31` and `0xFFFFFFFF80000000` respectively). -/
theorem op_shift_mask_five_bits :
    (execute tblEmpty vmShiftTest (encodeR 51 1 1 5 6 0)).map (fun s => s.Registers 1) =
      some 1 ∧
    (execute tblEmpty vmShiftTest (encodeR 51 2 5 7 6 0)).map (fun s => s.Registers 2) =
      some 9223372036854775808 ∧
    (execute tblEmpty vmShiftTest (encodeR 51 3 5 7 6 32)).map (fun s => s.Registers 3) =
      some 9223372036854775808 ∧
    (1 : Nat) ≠ 4294967296 ∧ (9223372036854775808 : Nat) ≠ 2147483648 ∧
    (9223372036854775808 : Nat) ≠ 18446744071562067968 := by
  refine ⟨by decide, by decide, by decide, by decide, by decide, by decide⟩

/-! ### C3 — MULH, MULHSU, MULHU always produce 0 -/

/-- C3, evaluated at the failing input: with `r5 = r6 = 2^32` the 128-bit
reference product is `2^64`, whose high half is 1, but MULH, MULHSU and
MULHU all write 0 — the source multiplies in 64 bits (getting 0 after
wraparound) and then shifts that 64-bit value right by 64, which is
always 0. -/
theorem mulh_always_zero :
    (execute tblEmpty vmMulhTest (encodeR 51 1 1 5 6 1)).map (fun s => s.Registers 1) =
      some 0 ∧
    (execute tblEmpty vmMulhTest (encodeR 51 2 2 5 6 1)).map (fun s => s.Registers 2) =
      some 0 ∧
    (execute tblEmpty vmMulhTest (encodeR 51 3 3 5 6 1)).map (fun s => s.Registers 3) =
      some 0 ∧
    4294967296 * 4294967296 / 18446744073709551616 = 1 := by
  refine ⟨by decide, by decide, by decide, by decide⟩

/-! ### C4 — OP-IMM-32 does not truncate or sign-extend to 32 bits -/

/-- C4, evaluated at the failing input: with `r5 = 2^31`, ADDIW (funct3=0)
with immediate 0 leaves `2^31` in the destination instead of the
sign-extension `0xFFFFFFFF80000000` of the 32-bit sum, and SLLIW
(funct3=1) with shift 1 yields `2^32` instead of the sign-extension of
the 32-bit result 0 — the source's OP-IMM-32 block computes full 64-bit
results and never sign-extends from 32 bits. -/
theorem opimm32_not_32bit :
    (execute tblEmpty vmIaluTest (encodeR 27 1 0 5 0 0)).map (fun s => s.Registers 1) =
      some 2147483648 ∧
    (execute tblEmpty vmIaluTest (encodeR 27 2 1 5 1 0)).map (fun s => s.Registers 2) =
      some 4294967296 ∧
    toU64 (toSigned 32 ((2147483648 + 0) % 4294967296)) = 18446744071562067968 ∧
    toU64 (toSigned 32 (2147483648 * 2 % 4294967296)) = 0 ∧
    (2147483648 : Nat) ≠ 18446744071562067968 ∧ (4294967296 : Nat) ≠ 0 := by
  refine ⟨by decide, by decide, by decide, by decide, by decide, by decide⟩

/-! ### C5 — out-of-range memory accesses do not trigger the VM panic -/

/-- C5, evaluated at the failing input: a halfword load at address 65535
(`a + 2 > MEM_SIZE`) silently yields 0 and execution continues — the
running flag stays `true`, the exit code stays 0, no panic-callback call
is recorded; and a byte load at address 70000 is a Go runtime abort
(`none`), not the VM panic policy.  In neither case does the VM panic
with "out of range". -/
theorem out_of_range_access_no_panic :
    (execute tblEmpty vmRangeTest (encodeR 3 1 1 5 0 0)).map
        (fun s => (s.Running, s.ExitCode, s.PanicCalls, s.Registers 1, s.Pc)) =
      some (true, 0, ([] : List String), 0, 4100) ∧
    execute tblEmpty vmRangeTest (encodeR 3 1 0 6 0 0) = none :=
  ⟨by decide, rfl⟩

/-! ### C6 — the PC is not always a multiple of 4; it is always even -/

/-- Counterexample to C6 as stated: from the 4-aligned PC `0x1000`, JALR
with `rs1 = r5 = 2` and immediate 0 sets the PC to 2 (only the low bit of
`rs1 + imm` is cleared), and `2 % 4 ≠ 0`. -/
theorem pc_mod4_counterexample :
    (execute tblEmpty vmJalrTest (encodeR 103 0 0 5 0 0)).map (fun s => s.Pc) = some 2 ∧
    ¬(2 % 4 = 0) :=
  ⟨by decide, by decide⟩

/-! ### Case-analysis principle for one dispatch step of execute -/

theorem execute_cases (tbl : SyscallTable) (vm : VmState) (inst0 : Nat)
    (P : Option VmState → Prop)
    (h3 : opcodeOf (inst0 % 4294967296) = 3 → P (executeLoad vm (inst0 % 4294967296)))
    (h35 : opcodeOf (inst0 % 4294967296) = 35 → P (executeStore vm (inst0 % 4294967296)))
    (h19 : opcodeOf (inst0 % 4294967296) = 19 → P (executeImm vm (inst0 % 4294967296)))
    (h27 : opcodeOf (inst0 % 4294967296) = 27 → P (executeIalu vm (inst0 % 4294967296)))
    (h51 : opcodeOf (inst0 % 4294967296) = 51 → P (executeRt64 vm (inst0 % 4294967296)))
    (h59 : opcodeOf (inst0 % 4294967296) = 59 → P (executeRt32 vm (inst0 % 4294967296)))
    (h55 : opcodeOf (inst0 % 4294967296) = 55 → P (executeLui vm (inst0 % 4294967296)))
    (h23 : opcodeOf (inst0 % 4294967296) = 23 → P (executeAuipc vm (inst0 % 4294967296)))
    (h111 : opcodeOf (inst0 % 4294967296) = 111 → P (executeJal vm (inst0 % 4294967296)))
    (h103 : opcodeOf (inst0 % 4294967296) = 103 → P (executeJalr vm (inst0 % 4294967296)))
    (h99 : opcodeOf (inst0 % 4294967296) = 99 → P (executeBranch vm (inst0 % 4294967296)))
    (h15 : opcodeOf (inst0 % 4294967296) = 15 → P (some (bump vm)))
    (h115 : opcodeOf (inst0 % 4294967296) = 115 → P (executeCall tbl vm (inst0 % 4294967296)))
    (hother : P (some (bump (vmPanic vm "Invalid opcode instruction.")))) :
    P (execute tbl vm inst0) := by
  unfold execute
  by_cases c3 : opcodeOf (inst0 % 4294967296) = 3
  · rw [if_pos c3]; exact h3 c3
  rw [if_neg c3]
  by_cases c35 : opcodeOf (inst0 % 4294967296) = 35
  · rw [if_pos c35]; exact h35 c35
  rw [if_neg c35]
  by_cases c19 : opcodeOf (inst0 % 4294967296) = 19
  · rw [if_pos c19]; exact h19 c19
  rw [if_neg c19]
  by_cases c27 : opcodeOf (inst0 % 4294967296) = 27
  · rw [if_pos c27]; exact h27 c27
  rw [if_neg c27]
  by_cases c51 : opcodeOf (inst0 % 4294967296) = 51
  · rw [if_pos c51]; exact h51 c51
  rw [if_neg c51]
  by_cases c59 : opcodeOf (inst0 % 4294967296) = 59
  · rw [if_pos c59]; exact h59 c59
  rw [if_neg c59]
  by_cases c55 : opcodeOf (inst0 % 4294967296) = 55
  · rw [if_pos c55]; exact h55 c55
  rw [if_neg c55]
  by_cases c23 : opcodeOf (inst0 % 4294967296) = 23
  · rw [if_pos c23]; exact h23 c23
  rw [if_neg c23]
  by_cases c111 : opcodeOf (inst0 % 4294967296) = 111
  · rw [if_pos c111]; exact h111 c111
  rw [if_neg c111]
  by_cases c103 : opcodeOf (inst0 % 4294967296) = 103
  · rw [if_pos c103]; exact h103 c103
  rw [if_neg c103]
  by_cases c99 : opcodeOf (inst0 % 4294967296) = 99
  · rw [if_pos c99]; exact h99 c99
  rw [if_neg c99]
  by_cases c15 : opcodeOf (inst0 % 4294967296) = 15
  · rw [if_pos c15]; exact h15 c15
  rw [if_neg c15]
  by_cases c115 : opcodeOf (inst0 % 4294967296) = 115
  · rw [if_pos c115]; exact h115 c115
  rw [if_neg c115]
  exact hother

/-! ### C9 — register 0 is never written by any instruction -/

theorem setReg_ne (regs : Nat → Nat) (i v j : Nat) (h : j ≠ i) : setReg regs i v j = regs j := by
  unfold setReg; rw [if_neg h]

theorem executeLoad_reg0 (vm vm' : VmState) (inst : Nat)
    (hx : executeLoad vm inst = some vm') : vm'.Registers 0 = vm.Registers 0 := by
  simp only [executeLoad] at hx
  split_ifs at hx <;>
    first
      | exact Option.noConfusion hx
      | (cases Option.some.inj hx; simp)

theorem executeStore_reg0 (vm vm' : VmState) (inst : Nat)
    (hx : executeStore vm inst = some vm') : vm'.Registers 0 = vm.Registers 0 := by
  simp only [executeStore] at hx
  split_ifs at hx <;>
    first
      | exact Option.noConfusion hx
      | (cases Option.some.inj hx; simp)

theorem executeImm_reg0 (vm vm' : VmState) (inst : Nat)
    (hx : executeImm vm inst = some vm') : vm'.Registers 0 = vm.Registers 0 := by
  simp only [executeImm] at hx
  cases Option.some.inj hx
  simp only [bump_Registers, writeRd_Registers_zero,
    apply_ite (fun p : VmState × Int => p.1.Registers 0), vmPanic_Registers, ite_self]

theorem executeIalu_reg0 (vm vm' : VmState) (inst : Nat)
    (hx : executeIalu vm inst = some vm') : vm'.Registers 0 = vm.Registers 0 := by
  simp only [executeIalu] at hx
  cases Option.some.inj hx
  simp only [bump_Registers, writeRd_Registers_zero,
    apply_ite (fun p : VmState × Int => p.1.Registers 0), vmPanic_Registers, ite_self]

theorem executeRt64_reg0 (vm vm' : VmState) (inst : Nat)
    (hx : executeRt64 vm inst = some vm') : vm'.Registers 0 = vm.Registers 0 := by
  simp only [executeRt64] at hx
  cases Option.some.inj hx
  simp only [bump_Registers, writeRd_Registers_zero,
    apply_ite (fun p : VmState × Int => p.1.Registers 0), vmPanic_Registers, ite_self]

theorem executeRt32_reg0 (vm vm' : VmState) (inst : Nat)
    (hx : executeRt32 vm inst = some vm') : vm'.Registers 0 = vm.Registers 0 := by
  simp only [executeRt32] at hx
  cases Option.some.inj hx
  simp only [bump_Registers, writeRd_Registers_zero,
    apply_ite (fun p : VmState × Int => p.1.Registers 0), vmPanic_Registers, ite_self]

theorem executeLui_reg0 (vm vm' : VmState) (inst : Nat)
    (hx : executeLui vm inst = some vm') : vm'.Registers 0 = vm.Registers 0 := by
  simp only [executeLui] at hx
  cases Option.some.inj hx; simp

theorem executeAuipc_reg0 (vm vm' : VmState) (inst : Nat)
    (hx : executeAuipc vm inst = some vm') : vm'.Registers 0 = vm.Registers 0 := by
  simp only [executeAuipc] at hx
  cases Option.some.inj hx; simp

theorem executeJal_reg0 (vm vm' : VmState) (inst : Nat)
    (hx : executeJal vm inst = some vm') : vm'.Registers 0 = vm.Registers 0 := by
  simp only [executeJal] at hx
  cases Option.some.inj hx; simp

theorem executeJalr_reg0 (vm vm' : VmState) (inst : Nat)
    (hx : executeJalr vm inst = some vm') : vm'.Registers 0 = vm.Registers 0 := by
  simp only [executeJalr] at hx
  cases Option.some.inj hx; simp

theorem executeBranch_reg0 (vm vm' : VmState) (inst : Nat)
    (hx : executeBranch vm inst = some vm') : vm'.Registers 0 = vm.Registers 0 := by
  simp only [executeBranch] at hx
  cases Option.some.inj hx
  simp only [apply_ite (fun s : VmState => s.Registers 0), bump_Registers,
    apply_ite (fun p : VmState × Bool => p.1.Registers 0), vmPanic_Registers, ite_self]

theorem handleSyscall_reg0 (tbl : SyscallTable) (vm : VmState) (code : Nat)
    (hh : ∀ c fn, tbl c = some fn → ∀ s, (fn s).1.Registers 0 = s.Registers 0) :
    (handleSyscall tbl vm code).1.Registers 0 = vm.Registers 0 := by
  unfold handleSyscall
  split_ifs with h
  · simp only []
    split_ifs with h2 <;> rfl
  · cases ht : tbl code with
    | none => simp [ht]
    | some fn => simp only [ht]; exact hh code fn ht vm

theorem executeCall_reg0 (tbl : SyscallTable) (vm vm' : VmState) (inst : Nat)
    (hh : ∀ c fn, tbl c = some fn → ∀ s, (fn s).1.Registers 0 = s.Registers 0)
    (hx : executeCall tbl vm inst = some vm') : vm'.Registers 0 = vm.Registers 0 := by
  simp only [executeCall] at hx
  split_ifs at hx <;> cases Option.some.inj hx
  · show setReg (handleSyscall tbl vm (vm.Registers 17)).1.Registers 10
      (handleSyscall tbl vm (vm.Registers 17)).2 0 = vm.Registers 0
    rw [setReg_ne _ _ _ _ (by norm_num)]
    exact handleSyscall_reg0 tbl vm _ hh
  · rfl
  · simp only [bump_Registers, vmPanic_Registers]

theorem execute_preserves_reg0 (tbl : SyscallTable) (vm : VmState) (inst : Nat) (vm' : VmState)
    (hh : ∀ c fn, tbl c = some fn → ∀ s, (fn s).1.Registers 0 = s.Registers 0)
    (hx : execute tbl vm inst = some vm') :
    vm'.Registers 0 = vm.Registers 0 := by
  revert hx
  refine execute_cases tbl vm inst
    (fun o => o = some vm' → vm'.Registers 0 = vm.Registers 0)
    (fun _ hx => executeLoad_reg0 vm vm' _ hx)
    (fun _ hx => executeStore_reg0 vm vm' _ hx)
    (fun _ hx => executeImm_reg0 vm vm' _ hx)
    (fun _ hx => executeIalu_reg0 vm vm' _ hx)
    (fun _ hx => executeRt64_reg0 vm vm' _ hx)
    (fun _ hx => executeRt32_reg0 vm vm' _ hx)
    (fun _ hx => executeLui_reg0 vm vm' _ hx)
    (fun _ hx => executeAuipc_reg0 vm vm' _ hx)
    (fun _ hx => executeJal_reg0 vm vm' _ hx)
    (fun _ hx => executeJalr_reg0 vm vm' _ hx)
    (fun _ hx => executeBranch_reg0 vm vm' _ hx)
    (fun _ hx => ?_) (fun _ hx => executeCall_reg0 tbl vm vm' _ hh hx) (fun hx => ?_)
  · cases Option.some.inj hx; simp
  · cases Option.some.inj hx; simp

/-- C9: for every program and every number of executed instructions,
register 0 never changes: no instruction of any opcode class writes it
(a write with `rd = 0` is silently dropped), so it still reads as its
initial value 0 after any run — provided every registered host syscall
handler preserves register 0 (host handlers receive the whole VM and are
outside the instruction set). -/
theorem register_zero_invariant (tbl : SyscallTable) (fuel : Nat) (vm vm' : VmState)
    (hh : ∀ c fn, tbl c = some fn → ∀ s, (fn s).1.Registers 0 = s.Registers 0)
    (hx : runLoop tbl fuel vm = some vm') :
    vm'.Registers 0 = vm.Registers 0 := by
  induction fuel generalizing vm with
  | zero =>
    cases Option.some.inj hx
    rfl
  | succ n ih =>
    unfold runLoop at hx
    split_ifs at hx with hr
    · cases hf : fetch vm with
      | none => rw [hf, Option.none_bind] at hx; exact Option.noConfusion hx
      | some w =>
        rw [hf, Option.some_bind] at hx
        cases he : execute tbl vm w with
        | none => rw [he, Option.none_bind] at hx; exact Option.noConfusion hx
        | some vm1 =>
          rw [he, Option.some_bind] at hx
          calc vm'.Registers 0 = vm1.Registers 0 := ih vm1 hx
            _ = vm.Registers 0 := execute_preserves_reg0 tbl vm w vm1 hh he
    · cases Option.some.inj hx
      rfl

/-- Witness for C9 at a concrete run: from the zeroed baseline state the
run halts after one step (instruction word 0 is an invalid opcode) and
register 0 still reads 0. -/
theorem register_zero_invariant_witness :
    runLoop tblEmpty 2 vm0 = some (bump (vmPanic vm0 "Invalid opcode instruction.")) ∧
    (bump (vmPanic vm0 "Invalid opcode instruction.")).Registers 0 = vm0.Registers 0 ∧
    vm0.Registers 0 = 0 :=
  ⟨rfl,
    register_zero_invariant tblEmpty 2 vm0 (bump (vmPanic vm0 "Invalid opcode instruction."))
      (fun _ _ h => Option.noConfusion h) rfl,
    rfl⟩

/-! ### C6 (amended) — the PC stays even across every step -/

theorem bump_even (pc : Nat) (h : pc % 2 = 0) :
    ((pc + 4) % 18446744073709551616) % 2 = 0 := by omega

theorem pcAdd_even (pc : Nat) (i : Int) (hpc : pc % 2 = 0) (hi : i % 2 = 0) :
    ((pc + toU64 i) % 18446744073709551616) % 2 = 0 := by
  unfold toU64; omega

theorem fdiv2048_even (v : Int) (hv : v % 4096 = 0) : Int.fdiv v 2048 % 2 = 0 := by
  obtain ⟨m, rfl⟩ : ∃ m, v = 2048 * (2 * m) := ⟨v / 4096, by omega⟩
  rw [Int.mul_fdiv_cancel_left _ (by norm_num)]
  omega

theorem fdiv524288_even (v : Int) (hv : v % 1048576 = 0) : Int.fdiv v 524288 % 2 = 0 := by
  obtain ⟨m, rfl⟩ : ∃ m, v = 524288 * (2 * m) := ⟨v / 1048576, by omega⟩
  rw [Int.mul_fdiv_cancel_left _ (by norm_num)]
  omega

theorem immJ_even (inst : Nat) : immJ inst % 2 = 0 := by
  have hc : jalBits inst % 2 = 0 := by unfold jalBits; omega
  unfold immJ
  rw [toSigned32_eq]
  split_ifs with h
  · exact fdiv2048_even _ (by omega)
  · exact fdiv2048_even _ (by omega)

theorem immB_even (inst : Nat) : immB inst % 2 = 0 := by
  have hc : branchBits inst % 2 = 0 := by unfold branchBits; omega
  unfold immB
  rw [toSigned32_eq]
  split_ifs with h
  · exact fdiv524288_even _ (by omega)
  · exact fdiv524288_even _ (by omega)

theorem executeLoad_pc (vm vm' : VmState) (inst : Nat)
    (hx : executeLoad vm inst = some vm') :
    vm'.Pc = (vm.Pc + 4) % 18446744073709551616 := by
  simp only [executeLoad] at hx
  split_ifs at hx <;>
    first
      | exact Option.noConfusion hx
      | (cases Option.some.inj hx; simp)

theorem executeStore_pc (vm vm' : VmState) (inst : Nat)
    (hx : executeStore vm inst = some vm') :
    vm'.Pc = (vm.Pc + 4) % 18446744073709551616 := by
  simp only [executeStore] at hx
  split_ifs at hx <;>
    first
      | exact Option.noConfusion hx
      | (cases Option.some.inj hx; simp)

theorem executeImm_pc (vm vm' : VmState) (inst : Nat)
    (hx : executeImm vm inst = some vm') :
    vm'.Pc = (vm.Pc + 4) % 18446744073709551616 := by
  simp only [executeImm] at hx
  cases Option.some.inj hx
  simp only [bump_Pc, writeRd_Pc,
    apply_ite (fun p : VmState × Int => p.1.Pc), vmPanic_Pc, ite_self]

theorem executeIalu_pc (vm vm' : VmState) (inst : Nat)
    (hx : executeIalu vm inst = some vm') :
    vm'.Pc = (vm.Pc + 4) % 18446744073709551616 := by
  simp only [executeIalu] at hx
  cases Option.some.inj hx
  simp only [bump_Pc, writeRd_Pc,
    apply_ite (fun p : VmState × Int => p.1.Pc), vmPanic_Pc, ite_self]

theorem executeRt64_pc (vm vm' : VmState) (inst : Nat)
    (hx : executeRt64 vm inst = some vm') :
    vm'.Pc = (vm.Pc + 4) % 18446744073709551616 := by
  simp only [executeRt64] at hx
  cases Option.some.inj hx
  simp only [bump_Pc, writeRd_Pc,
    apply_ite (fun p : VmState × Int => p.1.Pc), vmPanic_Pc, ite_self]

theorem executeRt32_pc (vm vm' : VmState) (inst : Nat)
    (hx : executeRt32 vm inst = some vm') :
    vm'.Pc = (vm.Pc + 4) % 18446744073709551616 := by
  simp only [executeRt32] at hx
  cases Option.some.inj hx
  simp only [bump_Pc, writeRd_Pc,
    apply_ite (fun p : VmState × Int => p.1.Pc), vmPanic_Pc, ite_self]

theorem executeLui_pc (vm vm' : VmState) (inst : Nat)
    (hx : executeLui vm inst = some vm') :
    vm'.Pc = (vm.Pc + 4) % 18446744073709551616 := by
  simp only [executeLui] at hx
  cases Option.some.inj hx
  simp only [bump_Pc, writeRd_Pc]

theorem executeAuipc_pc (vm vm' : VmState) (inst : Nat)
    (hx : executeAuipc vm inst = some vm') :
    vm'.Pc = (vm.Pc + 4) % 18446744073709551616 := by
  simp only [executeAuipc] at hx
  cases Option.some.inj hx
  simp only [bump_Pc, writeRdU_Pc]

theorem executeJal_pc (vm vm' : VmState) (inst : Nat)
    (hx : executeJal vm inst = some vm') :
    vm'.Pc = (vm.Pc + toU64 (immJ inst)) % 18446744073709551616 := by
  simp only [executeJal] at hx
  cases Option.some.inj hx
  show (writeRdU vm (rdOf inst) ((vm.Pc + 4) % 18446744073709551616)).Pc.add
      (toU64 (immJ inst)) % 18446744073709551616 = _
  rw [Nat.add_eq, writeRdU_Pc]

theorem executeJalr_pc_even (vm vm' : VmState) (inst : Nat)
    (hx : executeJalr vm inst = some vm') : vm'.Pc % 2 = 0 := by
  simp only [executeJalr] at hx
  cases Option.some.inj hx
  rw [writeRdU_Pc]
  show ((vm.Registers (rs1Of inst) + toU64 (immI inst)) % 18446744073709551616 -
    (vm.Registers (rs1Of inst) + toU64 (immI inst)) % 18446744073709551616 % 2) % 2 = 0
  omega

theorem mod2_ite (c : Prop) [Decidable c] (a b : Nat) (ha : a % 2 = 0) (hb : b % 2 = 0) :
    (if c then a else b) % 2 = 0 := by
  split_ifs <;> assumption

theorem executeBranch_pc_even (vm vm' : VmState) (inst : Nat) (hpc : vm.Pc % 2 = 0)
    (hx : executeBranch vm inst = some vm') : vm'.Pc % 2 = 0 := by
  simp only [executeBranch] at hx
  cases Option.some.inj hx
  simp only [apply_ite (fun s : VmState => s.Pc), bump_Pc,
    apply_ite (fun p : VmState × Bool => p.1.Pc), vmPanic_Pc, ite_self]
  exact mod2_ite _ _ _ (pcAdd_even _ _ hpc (immB_even inst)) (bump_even _ hpc)

theorem handleSyscall_pc (tbl : SyscallTable) (vm : VmState) (code : Nat)
    (hh : ∀ c fn, tbl c = some fn → ∀ s, (fn s).1.Pc = s.Pc) :
    (handleSyscall tbl vm code).1.Pc = vm.Pc := by
  unfold handleSyscall
  split_ifs with h
  · simp only []
    split_ifs with h2 <;> rfl
  · cases ht : tbl code with
    | none => simp [ht]
    | some fn => simp only [ht]; exact hh code fn ht vm

theorem executeCall_pc (tbl : SyscallTable) (vm vm' : VmState) (inst : Nat)
    (hh : ∀ c fn, tbl c = some fn → ∀ s, (fn s).1.Pc = s.Pc)
    (hx : executeCall tbl vm inst = some vm') :
    vm'.Pc = (vm.Pc + 4) % 18446744073709551616 := by
  simp only [executeCall] at hx
  split_ifs at hx <;> cases Option.some.inj hx
  · show ((handleSyscall tbl vm (vm.Registers 17)).1.Pc + 4) % 18446744073709551616 = _
    rw [handleSyscall_pc tbl vm _ hh]
  · rfl
  · simp only [bump_Pc, vmPanic_Pc]

/-- C6, amended: from an even PC, every successful `execute` step leaves
the PC even (the fall-through adds 4; JAL and taken branches add an
immediate that is even by encoding; JALR clears the low bit) — provided
registered host syscall handlers do not move the PC.  The original claim
(PC stays a multiple of 4) is refuted by `pc_mod4_counterexample`: JALR
only clears bit 0, so PC ≡ 2 (mod 4) is reachable. -/
theorem pc_even_invariant (tbl : SyscallTable) (vm : VmState) (inst : Nat) (vm' : VmState)
    (hh : ∀ c fn, tbl c = some fn → ∀ s, (fn s).1.Pc = s.Pc)
    (hpc : vm.Pc % 2 = 0)
    (hx : execute tbl vm inst = some vm') :
    vm'.Pc % 2 = 0 := by
  revert hx
  refine execute_cases tbl vm inst (fun o => o = some vm' → vm'.Pc % 2 = 0)
    (fun _ hx => by rw [executeLoad_pc vm vm' _ hx]; exact bump_even _ hpc)
    (fun _ hx => by rw [executeStore_pc vm vm' _ hx]; exact bump_even _ hpc)
    (fun _ hx => by rw [executeImm_pc vm vm' _ hx]; exact bump_even _ hpc)
    (fun _ hx => by rw [executeIalu_pc vm vm' _ hx]; exact bump_even _ hpc)
    (fun _ hx => by rw [executeRt64_pc vm vm' _ hx]; exact bump_even _ hpc)
    (fun _ hx => by rw [executeRt32_pc vm vm' _ hx]; exact bump_even _ hpc)
    (fun _ hx => by rw [executeLui_pc vm vm' _ hx]; exact bump_even _ hpc)
    (fun _ hx => by rw [executeAuipc_pc vm vm' _ hx]; exact bump_even _ hpc)
    (fun _ hx => by rw [executeJal_pc vm vm' _ hx]; exact pcAdd_even _ _ hpc (immJ_even _))
    (fun _ hx => executeJalr_pc_even vm vm' _ hx)
    (fun _ hx => executeBranch_pc_even vm vm' _ hpc hx)
    (fun _ hx => by cases Option.some.inj hx; exact bump_even _ hpc)
    (fun _ hx => by rw [executeCall_pc tbl vm vm' _ hh hx]; exact bump_even _ hpc)
    (fun hx => by cases Option.some.inj hx; rw [bump_Pc, vmPanic_Pc]; exact bump_even _ hpc)

/-- Witness for C6 (amended) at a concrete input: a FENCE step from the
even PC 0x1000 leaves the PC even. -/
theorem pc_even_invariant_witness :
    vmJalrTest.Pc % 2 = 0 ∧
    execute tblEmpty vmJalrTest 15 = some (bump vmJalrTest) ∧
    (bump vmJalrTest).Pc % 2 = 0 :=
  ⟨by decide, rfl,
    pc_even_invariant tblEmpty vmJalrTest 15 (bump vmJalrTest)
      (fun _ _ h => Option.noConfusion h) (by decide) rfl⟩

/-! ### C8 — the panic policy -/

theorem executeLoad_panic (vm vm' : VmState) (inst : Nat) (h3 : f3Of inst = 7)
    (hx : executeLoad vm inst = some vm') : panickedFrom vm' vm := by
  simp only [executeLoad, h3] at hx
  norm_num at hx
  cases hx
  simp [panickedFrom, vmPanic_PanicCalls_length]

theorem executeStore_panic (vm vm' : VmState) (inst : Nat) (h3 : 4 ≤ f3Of inst)
    (hx : executeStore vm inst = some vm') : panickedFrom vm' vm := by
  simp only [executeStore] at hx
  rw [if_neg (by omega : f3Of inst ≠ 0), if_neg (by omega : f3Of inst ≠ 1),
    if_neg (by omega : f3Of inst ≠ 2), if_neg (by omega : f3Of inst ≠ 3)] at hx
  cases Option.some.inj hx
  simp [panickedFrom, vmPanic_PanicCalls_length]

theorem executeImm_panic (vm vm' : VmState) (inst : Nat) (h5 : f3Of inst = 5)
    (h6 : 2 ≤ inst / 67108864 % 64 / 16)
    (hx : executeImm vm inst = some vm') : panickedFrom vm' vm := by
  simp only [executeImm, h5] at hx
  norm_num at hx
  rw [if_neg (by omega : inst / 67108864 % 64 / 16 ≠ 0),
    if_neg (by omega : inst / 67108864 % 64 / 16 ≠ 1)] at hx
  cases hx
  simp [panickedFrom, vmPanic_PanicCalls_length]

theorem executeIalu_panic_f3 (vm vm' : VmState) (inst : Nat)
    (h : f3Of inst = 2 ∨ f3Of inst = 3 ∨ f3Of inst = 4)
    (hx : executeIalu vm inst = some vm') : panickedFrom vm' vm := by
  simp only [executeIalu] at hx
  rw [if_neg (by omega : f3Of inst ≠ 0), if_neg (by omega : f3Of inst ≠ 1),
    if_neg (by omega : f3Of inst ≠ 5), if_neg (by omega : f3Of inst ≠ 6),
    if_neg (by omega : f3Of inst ≠ 7)] at hx
  cases Option.some.inj hx
  simp [panickedFrom, vmPanic_PanicCalls_length]

theorem executeIalu_panic_shift (vm vm' : VmState) (inst : Nat) (h5 : f3Of inst = 5)
    (h7 : 2 ≤ f7Of inst / 32)
    (hx : executeIalu vm inst = some vm') : panickedFrom vm' vm := by
  simp only [executeIalu, h5] at hx
  norm_num at hx
  rw [if_neg (by omega : f7Of inst / 32 ≠ 0), if_neg (by omega : f7Of inst / 32 ≠ 1)] at hx
  cases hx
  simp [panickedFrom, vmPanic_PanicCalls_length]

theorem executeRt64_panic (vm vm' : VmState) (inst : Nat)
    (h : ¬(f7Of inst * 8 + f3Of inst ≤ 15 ∨ f7Of inst * 8 + f3Of inst = 256 ∨
      f7Of inst * 8 + f3Of inst = 261))
    (hx : executeRt64 vm inst = some vm') : panickedFrom vm' vm := by
  simp only [executeRt64] at hx
  rw [if_neg (by omega : f7Of inst * 8 + f3Of inst ≠ 0),
    if_neg (by omega : f7Of inst * 8 + f3Of inst ≠ 256),
    if_neg (by omega : f7Of inst * 8 + f3Of inst ≠ 1),
    if_neg (by omega : f7Of inst * 8 + f3Of inst ≠ 2),
    if_neg (by omega : f7Of inst * 8 + f3Of inst ≠ 3),
    if_neg (by omega : f7Of inst * 8 + f3Of inst ≠ 4),
    if_neg (by omega : f7Of inst * 8 + f3Of inst ≠ 5),
    if_neg (by omega : f7Of inst * 8 + f3Of inst ≠ 261),
    if_neg (by omega : f7Of inst * 8 + f3Of inst ≠ 6),
    if_neg (by omega : f7Of inst * 8 + f3Of inst ≠ 7),
    if_neg (by omega : f7Of inst * 8 + f3Of inst ≠ 8),
    if_neg (by omega : f7Of inst * 8 + f3Of inst ≠ 9),
    if_neg (by omega : f7Of inst * 8 + f3Of inst ≠ 10),
    if_neg (by omega : f7Of inst * 8 + f3Of inst ≠ 11),
    if_neg (by omega : f7Of inst * 8 + f3Of inst ≠ 12),
    if_neg (by omega : f7Of inst * 8 + f3Of inst ≠ 13),
    if_neg (by omega : f7Of inst * 8 + f3Of inst ≠ 14),
    if_neg (by omega : f7Of inst * 8 + f3Of inst ≠ 15)] at hx
  cases Option.some.inj hx
  simp [panickedFrom, vmPanic_PanicCalls_length]

theorem executeRt32_panic (vm vm' : VmState) (inst : Nat)
    (h : ¬(f7Of inst * 8 + f3Of inst = 0 ∨ f7Of inst * 8 + f3Of inst = 1 ∨
      f7Of inst * 8 + f3Of inst = 5 ∨ f7Of inst * 8 + f3Of inst = 8 ∨
      f7Of inst * 8 + f3Of inst = 12 ∨ f7Of inst * 8 + f3Of inst = 13 ∨
      f7Of inst * 8 + f3Of inst = 14 ∨ f7Of inst * 8 + f3Of inst = 15 ∨
      f7Of inst * 8 + f3Of inst = 256 ∨ f7Of inst * 8 + f3Of inst = 261))
    (hx : executeRt32 vm inst = some vm') : panickedFrom vm' vm := by
  simp only [executeRt32] at hx
  rw [if_neg (by omega : f7Of inst * 8 + f3Of inst ≠ 0),
    if_neg (by omega : f7Of inst * 8 + f3Of inst ≠ 256),
    if_neg (by omega : f7Of inst * 8 + f3Of inst ≠ 1),
    if_neg (by omega : f7Of inst * 8 + f3Of inst ≠ 5),
    if_neg (by omega : f7Of inst * 8 + f3Of inst ≠ 261),
    if_neg (by omega : f7Of inst * 8 + f3Of inst ≠ 8),
    if_neg (by omega : f7Of inst * 8 + f3Of inst ≠ 12),
    if_neg (by omega : f7Of inst * 8 + f3Of inst ≠ 13),
    if_neg (by omega : f7Of inst * 8 + f3Of inst ≠ 14),
    if_neg (by omega : f7Of inst * 8 + f3Of inst ≠ 15)] at hx
  cases Option.some.inj hx
  simp [panickedFrom, vmPanic_PanicCalls_length]

theorem executeBranch_panic (vm vm' : VmState) (inst : Nat)
    (h : f3Of inst = 2 ∨ f3Of inst = 3)
    (hx : executeBranch vm inst = some vm') : panickedFrom vm' vm := by
  rcases h with h | h <;>
    (simp only [executeBranch, h] at hx
     norm_num at hx
     cases hx
     simp [panickedFrom, vmPanic_PanicCalls_length])

theorem executeCall_panic_funct12 (tbl : SyscallTable) (vm vm' : VmState) (inst : Nat)
    (h : 2 ≤ inst / 1048576 % 4096)
    (hx : executeCall tbl vm inst = some vm') : panickedFrom vm' vm := by
  simp only [executeCall] at hx
  rw [if_neg (by omega : inst / 1048576 % 4096 ≠ 0),
    if_neg (by omega : inst / 1048576 % 4096 ≠ 1)] at hx
  cases Option.some.inj hx
  simp [panickedFrom, vmPanic_PanicCalls_length]

theorem executeCall_panic_syscall (tbl : SyscallTable) (vm vm' : VmState) (inst : Nat)
    (h0 : inst / 1048576 % 4096 = 0)
    (hr : vm.Registers 17 ≠ 0) (ht : tbl (vm.Registers 17) = none)
    (hx : executeCall tbl vm inst = some vm') : panickedFrom vm' vm := by
  simp only [executeCall, h0] at hx
  norm_num at hx
  simp only [handleSyscall, if_neg hr, ht] at hx
  cases hx
  simp [panickedFrom, vmPanic_PanicCalls_length]

/-- C8: whenever an instruction triggers the VM panic path (unknown
opcode, unknown `funct3`/`funct6`/`funct7` inside a recognized opcode,
unknown SYSTEM `funct12`, or an unregistered non-zero syscall code), the
resulting state has exit code `−1` and the running flag cleared whether
or not a panic callback is registered, the panic callback is invoked
exactly once if (and only if) one is registered, and the fetch-execute
loop executes no further instruction: `runLoop` returns this state
unchanged for every fuel. -/
theorem panic_policy (tbl : SyscallTable) (vm : VmState) (inst : Nat) (vm' : VmState)
    (hp : instPanics tbl vm inst = true)
    (hx : execute tbl vm inst = some vm') :
    panickedFrom vm' vm ∧ ∀ fuel, runLoop tbl fuel vm' = some vm' := by
  suffices h : panickedFrom vm' vm from
    ⟨h, fun fuel => runLoop_halted tbl fuel vm' h.2.1⟩
  revert hx
  refine execute_cases tbl vm inst (fun o => o = some vm' → panickedFrom vm' vm)
    ?_ ?_ ?_ ?_ ?_ ?_ ?_ ?_ ?_ ?_ ?_ ?_ ?_ ?_
  · intro c hx
    simp only [instPanics, c] at hp
    norm_num at hp
    exact executeLoad_panic vm vm' _ hp hx
  · intro c hx
    simp only [instPanics, c] at hp
    norm_num at hp
    exact executeStore_panic vm vm' _ hp hx
  · intro c hx
    simp only [instPanics, c] at hp
    norm_num at hp
    exact executeImm_panic vm vm' _ hp.1 hp.2 hx
  · intro c hx
    simp only [instPanics, c] at hp
    norm_num at hp
    rcases hp with h | ⟨h5, h7⟩
    · exact executeIalu_panic_f3 vm vm' _ (by tauto) hx
    · exact executeIalu_panic_shift vm vm' _ h5 h7 hx
  · intro c hx
    simp only [instPanics, c] at hp
    norm_num at hp
    exact executeRt64_panic vm vm' _ (by omega) hx
  · intro c hx
    simp only [instPanics, c] at hp
    norm_num at hp
    exact executeRt32_panic vm vm' _ (by omega) hx
  · intro c hx
    simp only [instPanics, c] at hp
    norm_num at hp
  · intro c hx
    simp only [instPanics, c] at hp
    norm_num at hp
  · intro c hx
    simp only [instPanics, c] at hp
    norm_num at hp
  · intro c hx
    simp only [instPanics, c] at hp
    norm_num at hp
  · intro c hx
    simp only [instPanics, c] at hp
    norm_num at hp
    exact executeBranch_panic vm vm' _ hp hx
  · intro c hx
    simp only [instPanics, c] at hp
    norm_num at hp
  · intro c hx
    simp only [instPanics, c] at hp
    norm_num at hp
    split_ifs at hp with hf
    · refine executeCall_panic_syscall tbl vm vm' _ hf ?_ ?_ hx
      · intro hc
        simp [hc] at hp
      · rcases ho : tbl (vm.Registers 17) with _ | fn
        · rfl
        · simp [ho] at hp
    · exact executeCall_panic_funct12 tbl vm vm' _ (by omega) hx
  · intro hx
    cases Option.some.inj hx
    simp [panickedFrom, vmPanic_PanicCalls_length]

/-- Witness for C8 at a concrete input: the all-ones word `0xFFFFFFFF`
(invalid opcode 0x7F) on a VM with a registered panic callback panics,
records one callback invocation, and the loop performs no further step. -/
theorem panic_policy_witness :
    instPanics tblEmpty vmPanicTest 4294967295 = true ∧
    panickedFrom vmPanicRes vmPanicTest ∧
    runLoop tblEmpty 1 vmPanicRes = some vmPanicRes := by
  have h := panic_policy tblEmpty vmPanicTest 4294967295 vmPanicRes (by decide) rfl
  exact ⟨by decide, h.1, h.2 1⟩

end Risbee
